import Mathlib

/-!
Verification of the review-management data-access layer
(`src/app/models.py`, `src/app/repositories.py`).

Shallow embedding conventions:
* UUID primary keys and timestamps are modelled as opaque `Nat` values;
  `gen_random_uuid()` / `CURRENT_TIMESTAMP` become explicit `freshId` /
  `now` parameters of the create operations.
* A SQLModel table is a Lean structure; the store is the triple of table
  contents, in insertion order.
* Constraint enforcement happens at `commit`: committing validates the
  candidate store against the schema constraints declared in
  `models.py` (unique columns, `__table_args__` check/unique constraints,
  foreign keys, NOT NULL, varchar lengths).  A failed commit raises
  `IntegrityError`; `create`/`update` catch it, roll back and re-raise
  `ValueError` (the domain ConstraintViolation), while `delete` does not
  wrap its commit in try/except, so there the `IntegrityError` escapes raw.
* `model_dump(exclude_unset=True)` partial-update semantics are modelled by
  `Option (Option _)` payload fields: the outer layer records whether the
  field was explicitly supplied, the inner layer is the supplied value,
  which may itself be an explicit null.
-/

/-- Row of the `reviewers` table (`Reviewer` in `models.py`).
`username`/`email` are NOT NULL columns, hence plain `String`. -/
structure ReviewerRow where
  id : Nat
  username : String
  email : String
  full_name : Option String
  created_at : Nat
  updated_at : Nat
deriving DecidableEq, Repr

/-- Row of the `reviewed_objects` table (`ReviewedObject` in `models.py`).
`object_metadata` is a JSONB document, modelled as an opaque key-value list. -/
structure ReviewedObjectRow where
  id : Nat
  object_type : String
  object_id : String
  object_name : String
  object_description : Option String
  object_metadata : Option (List (String × String))
  created_at : Nat
  updated_at : Nat
deriving DecidableEq, Repr

/-- Row of the `reviews` table (`Review` in `models.py`). -/
structure ReviewRow where
  id : Nat
  reviewer_id : Nat
  reviewed_object_id : Nat
  text_review : Option String
  star_rating : Option Int
  thumbs_rating : Option String
  created_at : Nat
  updated_at : Nat
deriving DecidableEq, Repr

/-- `ReviewerCreate` payload shape (caller-supplied fields only). -/
structure ReviewerCreate where
  username : String
  email : String
  full_name : Option String := none
deriving DecidableEq, Repr

/-- `ReviewedObjectCreate` payload shape. -/
structure ReviewedObjectCreate where
  object_type : String
  object_id : String
  object_name : String
  object_description : Option String := none
  object_metadata : Option (List (String × String)) := none
deriving DecidableEq, Repr

/-- `ReviewCreate` payload shape. -/
structure ReviewCreate where
  reviewer_id : Nat
  reviewed_object_id : Nat
  text_review : Option String := none
  star_rating : Option Int := none
  thumbs_rating : Option String := none
deriving DecidableEq, Repr

/-- `ReviewerUpdate` payload: each field is `none` when not supplied
(excluded by `model_dump(exclude_unset=True)`), `some v` when explicitly
supplied with value `v` — where `v` itself may be an explicit null. -/
structure ReviewerUpdate where
  username : Option (Option String) := none
  email : Option (Option String) := none
  full_name : Option (Option String) := none
deriving DecidableEq, Repr

/-- `ReviewedObjectUpdate` payload, same partial-update convention. -/
structure ReviewedObjectUpdate where
  object_type : Option (Option String) := none
  object_id : Option (Option String) := none
  object_name : Option (Option String) := none
  object_description : Option (Option String) := none
  object_metadata : Option (Option (List (String × String))) := none
deriving DecidableEq, Repr

/-- `ReviewUpdate` payload, same partial-update convention.  All three
columns are nullable, so an explicit null is a legal applied value. -/
structure ReviewUpdate where
  text_review : Option (Option String) := none
  star_rating : Option (Option Int) := none
  thumbs_rating : Option (Option String) := none
deriving DecidableEq, Repr

/-- The persisted store: contents of the three tables, in insertion order. -/
structure Store where
  reviewers : List ReviewerRow
  reviewed_objects : List ReviewedObjectRow
  reviews : List ReviewRow
deriving DecidableEq, Repr

/-- Row-level schema constraints of `reviewers`: varchar lengths
(`username` ≤ 50, `email` ≤ 255, `full_name` ≤ 255). -/
def reviewerRowOk (r : ReviewerRow) : Bool :=
  decide (r.username.length ≤ 50) &&
  decide (r.email.length ≤ 255) &&
  decide ((r.full_name.getD "").length ≤ 255)

/-- Row-level schema constraints of `reviewed_objects`: varchar lengths. -/
def reviewedObjectRowOk (r : ReviewedObjectRow) : Bool :=
  decide (r.object_type.length ≤ 50) &&
  decide (r.object_id.length ≤ 255) &&
  decide (r.object_name.length ≤ 255)

/-- `check_star_rating_range`: `star_rating >= 0 AND star_rating <= 5`.
A NULL rating passes the SQL check (three-valued logic). -/
def starRatingOk : Option Int → Bool
  | none => true
  | some k => decide (0 ≤ k ∧ k ≤ 5)

/-- `check_thumbs_rating_values`:
`thumbs_rating IN ('up', 'down') OR thumbs_rating IS NULL`. -/
def thumbsRatingOk : Option String → Bool
  | none => true
  | some t => t == "up" || t == "down"

/-- `check_review_content_exists`: at least one of the three content
columns is non-null. -/
def reviewContentOk (r : ReviewRow) : Bool :=
  r.text_review.isSome || r.star_rating.isSome || r.thumbs_rating.isSome

/-- Row-level schema constraints of `reviews`: the three check constraints
plus the `thumbs_rating` varchar(10) length. -/
def reviewRowOk (r : ReviewRow) : Bool :=
  starRatingOk r.star_rating &&
  thumbsRatingOk r.thumbs_rating &&
  reviewContentOk r &&
  decide ((r.thumbs_rating.getD "").length ≤ 10)

/-- Table-level constraints of `reviewers`: primary key plus the
`unique=True` declarations on `username` and `email`. -/
def reviewersOk (rs : List ReviewerRow) : Bool :=
  rs.all reviewerRowOk &&
  decide ((rs.map (·.id)).Nodup) &&
  decide ((rs.map (·.username)).Nodup) &&
  decide ((rs.map (·.email)).Nodup)

/-- Table-level constraints of `reviewed_objects`: primary key plus
`uq_object_type_id` on `(object_type, object_id)`. -/
def reviewedObjectsOk (rs : List ReviewedObjectRow) : Bool :=
  rs.all reviewedObjectRowOk &&
  decide ((rs.map (·.id)).Nodup) &&
  decide ((rs.map (fun r => (r.object_type, r.object_id))).Nodup)

/-- Table-level constraints of `reviews`: primary key plus
`uq_reviewer_object` on `(reviewer_id, reviewed_object_id)`. -/
def reviewsOk (rs : List ReviewRow) : Bool :=
  rs.all reviewRowOk &&
  decide ((rs.map (·.id)).Nodup) &&
  decide ((rs.map (fun r => (r.reviewer_id, r.reviewed_object_id))).Nodup)

/-- Foreign keys of `reviews`: `reviewer_id` references `reviewers.id`,
`reviewed_object_id` references `reviewed_objects.id`. -/
def reviewFksOk (s : Store) : Bool :=
  s.reviews.all (fun r =>
    s.reviewers.any (fun v => v.id == r.reviewer_id) &&
    s.reviewed_objects.any (fun o => o.id == r.reviewed_object_id))

/-- All schema constraints together: this is what a successful `commit`
guarantees about the committed store. -/
def storeOk (s : Store) : Bool :=
  reviewersOk s.reviewers &&
  reviewedObjectsOk s.reviewed_objects &&
  reviewsOk s.reviews &&
  reviewFksOk s

/-- Outcome of a repository operation.
* `ok value store`: the operation returned `value`, committed store `store`.
* `notFound store`: the operation returned Python `None` (sentinel absence).
* `valueError store`: the operation raised `ValueError` after catching
  `IntegrityError` and rolling back — the ConstraintViolation domain error.
* `integrityError store`: an uncaught `IntegrityError` escaped (the commit
  was not wrapped in try/except); the transaction aborts, the store keeps
  its prior contents. -/
inductive RepoResult (α : Type) where
  | ok : α → Store → RepoResult α
  | notFound : Store → RepoResult α
  | valueError : Store → RepoResult α
  | integrityError : Store → RepoResult α
deriving DecidableEq, Repr

/-- `Reviewer.model_validate(reviewer_data)` plus the creation defaults:
the id and both timestamps are stamped at creation. -/
def Reviewer.model_validate (d : ReviewerCreate) (freshId now : Nat) :
    ReviewerRow :=
  { id := freshId, username := d.username, email := d.email,
    full_name := d.full_name, created_at := now, updated_at := now }

/-- `ReviewedObject.model_validate(object_data)` plus the creation
defaults. -/
def ReviewedObject.model_validate (d : ReviewedObjectCreate)
    (freshId now : Nat) : ReviewedObjectRow :=
  { id := freshId, object_type := d.object_type, object_id := d.object_id,
    object_name := d.object_name,
    object_description := d.object_description,
    object_metadata := d.object_metadata,
    created_at := now, updated_at := now }

/-- `Review.model_validate(review_data)` plus the creation defaults. -/
def Review.model_validate (d : ReviewCreate) (freshId now : Nat) : ReviewRow :=
  { id := freshId, reviewer_id := d.reviewer_id,
    reviewed_object_id := d.reviewed_object_id,
    text_review := d.text_review, star_rating := d.star_rating,
    thumbs_rating := d.thumbs_rating, created_at := now, updated_at := now }

/-- `ReviewerRepository.create`: validate payload into a row (id and both
timestamps assigned at creation), add, commit; on `IntegrityError` roll
back and raise `ValueError`. -/
def ReviewerRepository.create (d : ReviewerCreate) (freshId now : Nat)
    (s : Store) : RepoResult ReviewerRow :=
  let row := Reviewer.model_validate d freshId now
  let s' : Store := { s with reviewers := s.reviewers ++ [row] }
  if storeOk s' then .ok row s' else .valueError s

/-- `ReviewerRepository.get_by_id`: `session.get(Reviewer, reviewer_id)`. -/
def ReviewerRepository.get_by_id (rid : Nat) (s : Store) : Option ReviewerRow :=
  s.reviewers.find? (fun r => r.id == rid)

/-- `ReviewerRepository.get_by_username`: `select(...).where(...)`, first. -/
def ReviewerRepository.get_by_username (u : String) (s : Store) :
    Option ReviewerRow :=
  s.reviewers.find? (fun r => r.username == u)

/-- `ReviewerRepository.get_by_email`. -/
def ReviewerRepository.get_by_email (e : String) (s : Store) :
    Option ReviewerRow :=
  s.reviewers.find? (fun r => r.email == e)

/-- `ReviewerRepository.get_all` with `offset(skip).limit(limit)`. -/
def ReviewerRepository.get_all (skip limit : Nat) (s : Store) :
    List ReviewerRow :=
  (s.reviewers.drop skip).take limit

/-- `ReviewerRepository.update`: load by id (absent → return `None`);
`setattr` each field present in `model_dump(exclude_unset=True)`; commit,
catching `IntegrityError` into rollback + `ValueError`.  An explicit null
assigned to the NOT NULL columns `username`/`email` makes the flush fail,
which lands in the same except branch. -/
def ReviewerRepository.update (rid : Nat) (d : ReviewerUpdate) (s : Store) :
    RepoResult ReviewerRow :=
  match s.reviewers.find? (fun r => r.id == rid) with
  | none => .notFound s
  | some row =>
    let username' : Option String := match d.username with
      | none => some row.username
      | some v => v
    let email' : Option String := match d.email with
      | none => some row.email
      | some v => v
    let full_name' : Option String := match d.full_name with
      | none => row.full_name
      | some v => v
    match username', email' with
    | some u, some e =>
      let row' : ReviewerRow :=
        { row with username := u, email := e, full_name := full_name' }
      let s' : Store :=
        { s with reviewers :=
            s.reviewers.map (fun r => if r.id == rid then row' else r) }
      if storeOk s' then .ok row' s' else .valueError s
    | _, _ => .valueError s

/-- `ReviewerRepository.delete`: load by id (absent → `False`); delete and
commit.  The commit is NOT wrapped in try/except in the source, so a
referential-integrity failure escapes as a raw `IntegrityError`. -/
def ReviewerRepository.delete (rid : Nat) (s : Store) : RepoResult Bool :=
  match s.reviewers.find? (fun r => r.id == rid) with
  | none => .ok false s
  | some _ =>
    let s' : Store :=
      { s with reviewers := s.reviewers.filter (fun r => r.id != rid) }
    if storeOk s' then .ok true s' else .integrityError s

/-- `ReviewedObjectRepository.create`. -/
def ReviewedObjectRepository.create (d : ReviewedObjectCreate)
    (freshId now : Nat) (s : Store) : RepoResult ReviewedObjectRow :=
  let row := ReviewedObject.model_validate d freshId now
  let s' : Store := { s with reviewed_objects := s.reviewed_objects ++ [row] }
  if storeOk s' then .ok row s' else .valueError s

/-- `ReviewedObjectRepository.get_by_id`. -/
def ReviewedObjectRepository.get_by_id (oid : Nat) (s : Store) :
    Option ReviewedObjectRow :=
  s.reviewed_objects.find? (fun r => r.id == oid)

/-- `ReviewedObjectRepository.get_by_type_and_id`: lookup by the natural
key `(object_type, object_id)`. -/
def ReviewedObjectRepository.get_by_type_and_id (ot oid : String) (s : Store) :
    Option ReviewedObjectRow :=
  s.reviewed_objects.find? (fun r => r.object_type == ot && r.object_id == oid)

/-- `ReviewedObjectRepository.get_by_type` with pagination. -/
def ReviewedObjectRepository.get_by_type (ot : String) (skip limit : Nat)
    (s : Store) : List ReviewedObjectRow :=
  ((s.reviewed_objects.filter (fun r => r.object_type == ot)).drop skip).take
    limit

/-- `ReviewedObjectRepository.get_all` with pagination. -/
def ReviewedObjectRepository.get_all (skip limit : Nat) (s : Store) :
    List ReviewedObjectRow :=
  (s.reviewed_objects.drop skip).take limit

/-- `ReviewedObjectRepository.update`, same shape as the reviewer update.
`object_type`, `object_id` and `object_name` are NOT NULL columns. -/
def ReviewedObjectRepository.update (oid : Nat) (d : ReviewedObjectUpdate)
    (s : Store) : RepoResult ReviewedObjectRow :=
  match s.reviewed_objects.find? (fun r => r.id == oid) with
  | none => .notFound s
  | some row =>
    let object_type' : Option String := match d.object_type with
      | none => some row.object_type
      | some v => v
    let object_id' : Option String := match d.object_id with
      | none => some row.object_id
      | some v => v
    let object_name' : Option String := match d.object_name with
      | none => some row.object_name
      | some v => v
    let object_description' : Option String := match d.object_description with
      | none => row.object_description
      | some v => v
    let object_metadata' : Option (List (String × String)) :=
      match d.object_metadata with
      | none => row.object_metadata
      | some v => v
    match object_type', object_id', object_name' with
    | some ot, some oi, some oname =>
      let row' : ReviewedObjectRow :=
        { row with
          object_type := ot
          object_id := oi
          object_name := oname
          object_description := object_description'
          object_metadata := object_metadata' }
      let s' : Store :=
        { s with reviewed_objects :=
            s.reviewed_objects.map (fun r => if r.id == oid then row' else r) }
      if storeOk s' then .ok row' s' else .valueError s
    | _, _, _ => .valueError s

/-- `ReviewedObjectRepository.delete`: like the reviewer delete, the commit
is not wrapped in try/except. -/
def ReviewedObjectRepository.delete (oid : Nat) (s : Store) : RepoResult Bool :=
  match s.reviewed_objects.find? (fun r => r.id == oid) with
  | none => .ok false s
  | some _ =>
    let s' : Store :=
      { s with reviewed_objects :=
          s.reviewed_objects.filter (fun r => r.id != oid) }
    if storeOk s' then .ok true s' else .integrityError s

/-- `ReviewRepository.create`.  (The pydantic `ge=0, le=5` bound on
`ReviewCreate.star_rating` duplicates the `check_star_rating_range`
database constraint; enforcement is modelled once, at commit — an
out-of-range rating fails either way.) -/
def ReviewRepository.create (d : ReviewCreate) (freshId now : Nat)
    (s : Store) : RepoResult ReviewRow :=
  let row := Review.model_validate d freshId now
  let s' : Store := { s with reviews := s.reviews ++ [row] }
  if storeOk s' then .ok row s' else .valueError s

/-- `ReviewRepository.get_by_id`. -/
def ReviewRepository.get_by_id (rid : Nat) (s : Store) : Option ReviewRow :=
  s.reviews.find? (fun r => r.id == rid)

/-- `ReviewRepository.get_by_reviewer` with pagination. -/
def ReviewRepository.get_by_reviewer (vid : Nat) (skip limit : Nat)
    (s : Store) : List ReviewRow :=
  ((s.reviews.filter (fun r => r.reviewer_id == vid)).drop skip).take limit

/-- `ReviewRepository.get_by_object` with pagination:
`select(Review).where(Review.reviewed_object_id == object_id)
.offset(skip).limit(limit)`. -/
def ReviewRepository.get_by_object (oid : Nat) (skip limit : Nat)
    (s : Store) : List ReviewRow :=
  ((s.reviews.filter (fun r => r.reviewed_object_id == oid)).drop skip).take
    limit

/-- `ReviewRepository.get_by_reviewer_and_object`: natural-key lookup. -/
def ReviewRepository.get_by_reviewer_and_object (vid oid : Nat) (s : Store) :
    Option ReviewRow :=
  s.reviews.find?
    (fun r => r.reviewer_id == vid && r.reviewed_object_id == oid)

/-- `ReviewRepository.get_all` with pagination. -/
def ReviewRepository.get_all (skip limit : Nat) (s : Store) : List ReviewRow :=
  (s.reviews.drop skip).take limit

/-- `ReviewRepository.update`.  All three updatable columns are nullable,
so every explicitly supplied value (including explicit null) is applied. -/
def ReviewRepository.update (rid : Nat) (d : ReviewUpdate) (s : Store) :
    RepoResult ReviewRow :=
  match s.reviews.find? (fun r => r.id == rid) with
  | none => .notFound s
  | some row =>
    let row' : ReviewRow :=
      { row with
        text_review := d.text_review.getD row.text_review,
        star_rating := d.star_rating.getD row.star_rating,
        thumbs_rating := d.thumbs_rating.getD row.thumbs_rating }
    let s' : Store :=
      { s with reviews :=
          s.reviews.map (fun r => if r.id == rid then row' else r) }
    if storeOk s' then .ok row' s' else .valueError s

/-- `ReviewRepository.delete`: the commit is not wrapped in try/except
(a review has no dependents, so its delete cannot break a foreign key). -/
def ReviewRepository.delete (rid : Nat) (s : Store) : RepoResult Bool :=
  match s.reviews.find? (fun r => r.id == rid) with
  | none => .ok false s
  | some _ =>
    let s' : Store :=
      { s with reviews := s.reviews.filter (fun r => r.id != rid) }
    if storeOk s' then .ok true s' else .integrityError s

/-- `ReviewStatistics` result shape (`models.py`); `average_rating` is
`float | None` in the source, modelled with exact rationals. -/
structure ReviewStatistics where
  object_id : Nat
  object_type : String
  object_name : String
  total_reviews : Nat
  average_rating : Option Rat
  thumbs_up_count : Nat
  thumbs_down_count : Nat
deriving DecidableEq, Repr

/-- Modelled from the spec: the statistics projection.  `src/` contains no
implementation of this computation — `models.py` only declares the
`ReviewStatistics` result shape — so the aggregate is taken from the
spec's words: "Given an object identifier, computes: total review count,
arithmetic mean of all present star_rating values (undefined/absent when
zero ratings exist — must not divide by zero), count of up thumbs,
count of down thumbs", derived from the current Review rows of the
given object. -/
def computeStatistics (s : Store) (obj : ReviewedObjectRow) :
    ReviewStatistics :=
  let revs := s.reviews.filter (fun r => r.reviewed_object_id == obj.id)
  let stars : List Int := revs.filterMap (fun r => r.star_rating)
  { object_id := obj.id, object_type := obj.object_type,
    object_name := obj.object_name,
    total_reviews := revs.length,
    average_rating :=
      if stars.isEmpty then none
      else some ((stars.map (fun k => (k : Rat))).sum / (stars.length : Rat)),
    thumbs_up_count :=
      (revs.filter (fun r => r.thumbs_rating == some "up")).length,
    thumbs_down_count :=
      (revs.filter (fun r => r.thumbs_rating == some "down")).length }

/-- Concrete fixture: one reviewer. -/
def aliceRow : ReviewerRow :=
  { id := 1, username := "alice", email := "alice@example.com",
    full_name := none, created_at := 10, updated_at := 10 }

/-- Concrete fixture: one reviewed object. -/
def movieRow : ReviewedObjectRow :=
  { id := 2, object_type := "movie", object_id := "m1",
    object_name := "A Movie", object_description := none,
    object_metadata := none, created_at := 10, updated_at := 10 }

/-- Concrete fixture: a store holding one reviewer and one object. -/
def baseStore : Store :=
  { reviewers := [aliceRow], reviewed_objects := [movieRow], reviews := [] }

/-- Concrete fixture: a review by the fixture reviewer on the fixture
object. -/
def aliceReviewRow : ReviewRow :=
  { id := 3, reviewer_id := 1, reviewed_object_id := 2,
    text_review := some "great", star_rating := some 5,
    thumbs_rating := some "up", created_at := 11, updated_at := 11 }

/-- Concrete fixture: the store after the fixture review is persisted. -/
def storeWithReview : Store :=
  { baseStore with reviews := [aliceReviewRow] }

/-! ### Helper lemmas -/

theorem nodup_append_singleton {α : Type} (l : List α) (a : α) :
    (l ++ [a]).Nodup ↔ a ∉ l ∧ l.Nodup := by
  rw [List.nodup_append_comm]
  simp [List.nodup_cons]

/-- Unfolding equation of `ReviewerRepository.create`. -/
theorem reviewerCreate_eq (d : ReviewerCreate) (f n : Nat)
    (s : Store) :
    ReviewerRepository.create d f n s =
      if storeOk
          { s with reviewers := s.reviewers ++ [Reviewer.model_validate d f n] }
      then .ok (Reviewer.model_validate d f n)
        { s with reviewers := s.reviewers ++ [Reviewer.model_validate d f n] }
      else .valueError s := rfl

/-- Unfolding equation of `ReviewedObjectRepository.create`. -/
theorem reviewedObjectCreate_eq (d : ReviewedObjectCreate)
    (f n : Nat) (s : Store) :
    ReviewedObjectRepository.create d f n s =
      if storeOk
          { s with reviewed_objects :=
              s.reviewed_objects ++ [ReviewedObject.model_validate d f n] }
      then .ok (ReviewedObject.model_validate d f n)
        { s with reviewed_objects :=
            s.reviewed_objects ++ [ReviewedObject.model_validate d f n] }
      else .valueError s := rfl

/-- Unfolding equation of `ReviewRepository.create`. -/
theorem reviewCreate_eq (d : ReviewCreate) (f n : Nat) (s : Store) :
    ReviewRepository.create d f n s =
      if storeOk
          { s with reviews := s.reviews ++ [Review.model_validate d f n] }
      then .ok (Review.model_validate d f n)
        { s with reviews := s.reviews ++ [Review.model_validate d f n] }
      else .valueError s := rfl

/-! ### C1 -/

/-- C1: for each entity repository, `create` either succeeds (returning a
committed store that satisfies every schema constraint) or fails with the
ConstraintViolation domain error (`ValueError` raised after catching
`IntegrityError` and rolling back), in which case the surfaced store is
exactly the pre-call store — no partial row persists.  The final conjunct
exhibits a uniqueness violation (duplicate username) taking the error
branch. -/
theorem claim_C1_create_constraint_rollback (dV : ReviewerCreate)
    (dO : ReviewedObjectCreate) (dR : ReviewCreate) (f n : Nat) (s : Store) :
    ((∃ row s', ReviewerRepository.create dV f n s = .ok row s' ∧
        storeOk s' = true) ∨
      ReviewerRepository.create dV f n s = .valueError s) ∧
    ((∃ row s', ReviewedObjectRepository.create dO f n s = .ok row s' ∧
        storeOk s' = true) ∨
      ReviewedObjectRepository.create dO f n s = .valueError s) ∧
    ((∃ row s', ReviewRepository.create dR f n s = .ok row s' ∧
        storeOk s' = true) ∨
      ReviewRepository.create dR f n s = .valueError s) ∧
    ReviewerRepository.create
      { username := "alice", email := "bob@example.com" } f n baseStore =
      .valueError baseStore := by
  refine ⟨?_, ?_, ?_, ?_⟩
  · rw [reviewerCreate_eq]
    by_cases h : storeOk
        { s with reviewers :=
            s.reviewers ++ [Reviewer.model_validate dV f n] } = true
    · rw [if_pos h]; exact Or.inl ⟨_, _, rfl, h⟩
    · rw [if_neg h]; exact Or.inr rfl
  · rw [reviewedObjectCreate_eq]
    by_cases h : storeOk
        { s with reviewed_objects :=
            s.reviewed_objects ++ [ReviewedObject.model_validate dO f n] } =
        true
    · rw [if_pos h]; exact Or.inl ⟨_, _, rfl, h⟩
    · rw [if_neg h]; exact Or.inr rfl
  · rw [reviewCreate_eq]
    by_cases h : storeOk
        { s with reviews := s.reviews ++ [Review.model_validate dR f n] } =
        true
    · rw [if_pos h]; exact Or.inl ⟨_, _, rfl, h⟩
    · rw [if_neg h]; exact Or.inr rfl
  · rw [reviewerCreate_eq]
    rw [if_neg]
    intro hok
    simp [storeOk, reviewersOk, baseStore, aliceRow,
      Reviewer.model_validate] at hok

/-! ### C2 -/

/-- Concrete fixture: the review persisted by the star-zero create. -/
def starZeroRow : ReviewRow :=
  { id := 3, reviewer_id := 1, reviewed_object_id := 2, text_review := none,
    star_rating := some 0, thumbs_rating := none,
    created_at := 11, updated_at := 11 }

/-- Concrete fixture: the review persisted by the thumbs-only create. -/
def thumbsUpRow : ReviewRow :=
  { id := 3, reviewer_id := 1, reviewed_object_id := 2, text_review := none,
    star_rating := none, thumbs_rating := some "up",
    created_at := 11, updated_at := 11 }

/-- C2: creating a review with `star_rating = 6` fails; `star_rating = 0`
succeeds; a null `star_rating` with `thumbs_rating = "up"` succeeds; all
three content fields null fails.  Moreover every review a successful
create persists satisfies the range check, the thumbs check and the
at-least-one-content-field check. -/
theorem claim_C2_review_validation :
    ReviewRepository.create
        { reviewer_id := 1, reviewed_object_id := 2, star_rating := some 6 }
        3 11 baseStore = .valueError baseStore ∧
    ReviewRepository.create
        { reviewer_id := 1, reviewed_object_id := 2, star_rating := some 0 }
        3 11 baseStore = .ok starZeroRow
        { baseStore with reviews := [starZeroRow] } ∧
    ReviewRepository.create
        { reviewer_id := 1, reviewed_object_id := 2,
          thumbs_rating := some "up" } 3 11 baseStore =
        .ok thumbsUpRow { baseStore with reviews := [thumbsUpRow] } ∧
    ReviewRepository.create { reviewer_id := 1, reviewed_object_id := 2 }
        3 11 baseStore = .valueError baseStore ∧
    (∀ d f n s row s', ReviewRepository.create d f n s = .ok row s' →
       starRatingOk row.star_rating = true ∧
       thumbsRatingOk row.thumbs_rating = true ∧
       reviewContentOk row = true) := by
  refine ⟨by decide, by decide, by decide, by decide, ?_⟩
  intro d f n s row s' h
  rw [reviewCreate_eq] at h
  by_cases hok : storeOk
      { s with reviews := s.reviews ++ [Review.model_validate d f n] } = true
  · rw [if_pos hok] at h
    obtain ⟨hrow, -⟩ := RepoResult.ok.inj h
    have hall : ∀ r ∈ s.reviews ++ [Review.model_validate d f n],
        reviewRowOk r = true := by
      simp only [storeOk, reviewsOk, Bool.and_eq_true, List.all_eq_true]
        at hok
      exact hok.1.2.1.1
    have hrk : reviewRowOk row = true := by
      subst hrow
      exact hall _ (by simp)
    simp only [reviewRowOk, Bool.and_eq_true] at hrk
    exact ⟨hrk.1.1.1, hrk.1.1.2, hrk.1.2⟩
  · rw [if_neg hok] at h
    exact absurd h (by simp)

/-- Witness for the hypothesis-bearing conjunct of C2: the star-zero
create from the concrete scenario persists a row passing all three
checks. -/
theorem claim_C2_review_validation_witness :
    starRatingOk starZeroRow.star_rating = true ∧
    thumbsRatingOk starZeroRow.thumbs_rating = true ∧
    reviewContentOk starZeroRow = true :=
  claim_C2_review_validation.2.2.2.2
    { reviewer_id := 1, reviewed_object_id := 2, star_rating := some 0 }
    3 11 baseStore starZeroRow { baseStore with reviews := [starZeroRow] }
    (by decide)

/-! ### Update characterizations -/

/-- A successful `ReviewRepository.update` applies exactly the supplied
fields to the found row (supplied explicit nulls included), touches no
other field and no other row, and commits a constraint-satisfying store. -/
theorem reviewUpdate_ok (rid : Nat) (d : ReviewUpdate) (s : Store)
    (row row' : ReviewRow) (s' : Store)
    (hfind : s.reviews.find? (fun r => r.id == rid) = some row)
    (h : ReviewRepository.update rid d s = .ok row' s') :
    row' = { row with
      text_review := d.text_review.getD row.text_review
      star_rating := d.star_rating.getD row.star_rating
      thumbs_rating := d.thumbs_rating.getD row.thumbs_rating } ∧
    s' = { s with reviews :=
        s.reviews.map (fun r => if r.id == rid then row' else r) } ∧
    storeOk s' = true := by
  simp only [ReviewRepository.update, hfind] at h
  by_cases hok : storeOk
      { s with reviews := s.reviews.map (fun r => if r.id == rid then
          { row with
            text_review := d.text_review.getD row.text_review
            star_rating := d.star_rating.getD row.star_rating
            thumbs_rating := d.thumbs_rating.getD row.thumbs_rating }
          else r) } = true
  · rw [if_pos hok] at h
    obtain ⟨h1, h2⟩ := RepoResult.ok.inj h
    subst h1
    subst h2
    exact ⟨rfl, rfl, hok⟩
  · rw [if_neg hok] at h
    exact absurd h (by simp)

/-- A successful `ReviewerRepository.update` applies exactly the supplied
fields to the found row, touches no other field and no other row, and
commits a constraint-satisfying store. -/
theorem reviewerUpdate_ok (rid : Nat) (d : ReviewerUpdate)
    (s : Store) (row row' : ReviewerRow) (s' : Store)
    (hfind : s.reviewers.find? (fun r => r.id == rid) = some row)
    (h : ReviewerRepository.update rid d s = .ok row' s') :
    some row'.username = d.username.getD (some row.username) ∧
    some row'.email = d.email.getD (some row.email) ∧
    row'.full_name = d.full_name.getD row.full_name ∧
    row'.id = row.id ∧ row'.created_at = row.created_at ∧
    row'.updated_at = row.updated_at ∧
    s' = { s with reviewers :=
        s.reviewers.map (fun r => if r.id == rid then row' else r) } ∧
    storeOk s' = true := by
  obtain ⟨du, de, df⟩ := d
  rcases du with _ | (_ | u) <;> rcases de with _ | (_ | e) <;>
    simp only [ReviewerRepository.update, hfind] at h <;>
    try exact RepoResult.noConfusion h
  all_goals split at h
  all_goals try exact RepoResult.noConfusion h
  all_goals obtain ⟨h1, h2⟩ := RepoResult.ok.inj h
  all_goals subst h1
  all_goals subst h2
  all_goals
    exact ⟨rfl, rfl, by cases df <;> rfl, rfl, rfl, rfl, rfl, by assumption⟩

/-- A successful `ReviewedObjectRepository.update` applies exactly the
supplied fields to the found row, touches no other field and no other
row, and commits a constraint-satisfying store. -/
theorem reviewedObjectUpdate_ok (oid : Nat)
    (d : ReviewedObjectUpdate) (s : Store) (row row' : ReviewedObjectRow)
    (s' : Store)
    (hfind : s.reviewed_objects.find? (fun r => r.id == oid) = some row)
    (h : ReviewedObjectRepository.update oid d s = .ok row' s') :
    some row'.object_type = d.object_type.getD (some row.object_type) ∧
    some row'.object_id = d.object_id.getD (some row.object_id) ∧
    some row'.object_name = d.object_name.getD (some row.object_name) ∧
    row'.object_description =
      d.object_description.getD row.object_description ∧
    row'.object_metadata = d.object_metadata.getD row.object_metadata ∧
    row'.id = row.id ∧ row'.created_at = row.created_at ∧
    row'.updated_at = row.updated_at ∧
    s' = { s with reviewed_objects :=
        s.reviewed_objects.map (fun r => if r.id == oid then row' else r) } ∧
    storeOk s' = true := by
  obtain ⟨dt, di, dn, dd, dm⟩ := d
  rcases dt with _ | (_ | t) <;> rcases di with _ | (_ | i) <;>
      rcases dn with _ | (_ | m) <;>
    simp only [ReviewedObjectRepository.update, hfind] at h <;>
    try exact RepoResult.noConfusion h
  all_goals split at h
  all_goals try exact RepoResult.noConfusion h
  all_goals obtain ⟨h1, h2⟩ := RepoResult.ok.inj h
  all_goals subst h1
  all_goals subst h2
  all_goals
    exact ⟨rfl, rfl, rfl, by cases dd <;> rfl, by cases dm <;> rfl, rfl, rfl,
      rfl, rfl, by assumption⟩

/-! ### C3 -/

/-- C3: for every entity repository, a successful `update(id, partial_data)`
changes exactly the fields explicitly supplied in the payload — an
explicitly supplied null is applied as null — while every omitted field
(the timestamps `created_at`/`updated_at` and the identity fields
included), every other row and every other table keeps its prior value.
Stated for all three repositories (Review, whose three updatable columns
are all nullable; Reviewer; ReviewedObject). -/
theorem claim_C3_partial_update_semantics (s : Store) (rid vid oid : Nat)
    (dR : ReviewUpdate) (rowR rowR' : ReviewRow) (sR : Store)
    (dV : ReviewerUpdate) (rowV rowV' : ReviewerRow) (sV : Store)
    (dO : ReviewedObjectUpdate) (rowO rowO' : ReviewedObjectRow)
    (sO : Store) :
    (s.reviews.find? (fun r => r.id == rid) = some rowR →
      ReviewRepository.update rid dR s = .ok rowR' sR →
      rowR'.text_review = dR.text_review.getD rowR.text_review ∧
      rowR'.star_rating = dR.star_rating.getD rowR.star_rating ∧
      rowR'.thumbs_rating = dR.thumbs_rating.getD rowR.thumbs_rating ∧
      rowR'.id = rowR.id ∧ rowR'.reviewer_id = rowR.reviewer_id ∧
      rowR'.reviewed_object_id = rowR.reviewed_object_id ∧
      rowR'.created_at = rowR.created_at ∧
      rowR'.updated_at = rowR.updated_at ∧
      sR.reviews =
        s.reviews.map (fun r => if r.id == rid then rowR' else r) ∧
      sR.reviewers = s.reviewers ∧
      sR.reviewed_objects = s.reviewed_objects) ∧
    (s.reviewers.find? (fun r => r.id == vid) = some rowV →
      ReviewerRepository.update vid dV s = .ok rowV' sV →
      some rowV'.username = dV.username.getD (some rowV.username) ∧
      some rowV'.email = dV.email.getD (some rowV.email) ∧
      rowV'.full_name = dV.full_name.getD rowV.full_name ∧
      rowV'.id = rowV.id ∧ rowV'.created_at = rowV.created_at ∧
      rowV'.updated_at = rowV.updated_at ∧
      sV.reviewers =
        s.reviewers.map (fun r => if r.id == vid then rowV' else r) ∧
      sV.reviewed_objects = s.reviewed_objects ∧
      sV.reviews = s.reviews) ∧
    (s.reviewed_objects.find? (fun r => r.id == oid) = some rowO →
      ReviewedObjectRepository.update oid dO s = .ok rowO' sO →
      some rowO'.object_type = dO.object_type.getD (some rowO.object_type) ∧
      some rowO'.object_id = dO.object_id.getD (some rowO.object_id) ∧
      some rowO'.object_name =
        dO.object_name.getD (some rowO.object_name) ∧
      rowO'.object_description =
        dO.object_description.getD rowO.object_description ∧
      rowO'.object_metadata = dO.object_metadata.getD rowO.object_metadata ∧
      rowO'.id = rowO.id ∧ rowO'.created_at = rowO.created_at ∧
      rowO'.updated_at = rowO.updated_at ∧
      sO.reviewed_objects =
        s.reviewed_objects.map (fun r => if r.id == oid then rowO' else r) ∧
      sO.reviewers = s.reviewers ∧
      sO.reviews = s.reviews) := by
  refine ⟨?_, ?_, ?_⟩
  · intro hfind hok
    obtain ⟨hrow, hs, -⟩ :=
      reviewUpdate_ok rid dR s rowR rowR' sR hfind hok
    subst hrow
    subst hs
    exact ⟨rfl, rfl, rfl, rfl, rfl, rfl, rfl, rfl, rfl, rfl, rfl⟩
  · intro hfind hok
    obtain ⟨h1, h2, h3, h4, h5, h6, hs, -⟩ :=
      reviewerUpdate_ok vid dV s rowV rowV' sV hfind hok
    subst hs
    exact ⟨h1, h2, h3, h4, h5, h6, rfl, rfl, rfl⟩
  · intro hfind hok
    obtain ⟨o1, o2, o3, o4, o5, o6, o7, o8, hs, -⟩ :=
      reviewedObjectUpdate_ok oid dO s rowO rowO' sO hfind hok
    subst hs
    exact ⟨o1, o2, o3, o4, o5, o6, o7, o8, rfl, rfl, rfl⟩

/-- Concrete fixture: C3 payload for the review update — text explicitly
set to null, star explicitly set to 4, thumbs omitted. -/
def cThreePayloadR : ReviewUpdate :=
  { text_review := some none, star_rating := some (some 4) }

/-- Concrete fixture: C3 payload for the reviewer update — only the
nullable `full_name` supplied. -/
def cThreePayloadV : ReviewerUpdate :=
  { full_name := some (some "Alice A") }

/-- Concrete fixture: the review row after the C3 update. -/
def updatedReviewRow : ReviewRow :=
  { id := 3, reviewer_id := 1, reviewed_object_id := 2, text_review := none,
    star_rating := some 4, thumbs_rating := some "up",
    created_at := 11, updated_at := 11 }

/-- Concrete fixture: the reviewer row after the C3 update. -/
def updatedAliceRow : ReviewerRow :=
  { id := 1, username := "alice", email := "alice@example.com",
    full_name := some "Alice A", created_at := 10, updated_at := 10 }

/-- Concrete fixture: C3 payload for the reviewed-object update — only
the nullable `object_description` supplied. -/
def cThreePayloadO : ReviewedObjectUpdate :=
  { object_description := some (some "a classic") }

/-- Concrete fixture: the reviewed object row after the C3 update. -/
def updatedMovieRow : ReviewedObjectRow :=
  { id := 2, object_type := "movie", object_id := "m1",
    object_name := "A Movie", object_description := some "a classic",
    object_metadata := none, created_at := 10, updated_at := 10 }

/-- Witness for C3: the concrete updates on all three repositories hit
the success path and show explicit null applied, supplied fields
changed, omitted fields (timestamps included) kept. -/
theorem claim_C3_partial_update_semantics_witness :
    updatedReviewRow.text_review = none ∧
    updatedReviewRow.star_rating = some 4 ∧
    updatedReviewRow.thumbs_rating = aliceReviewRow.thumbs_rating ∧
    updatedReviewRow.updated_at = aliceReviewRow.updated_at ∧
    updatedAliceRow.full_name = some "Alice A" ∧
    some updatedAliceRow.username = some aliceRow.username ∧
    updatedMovieRow.object_description = some "a classic" ∧
    some updatedMovieRow.object_type = some movieRow.object_type ∧
    updatedMovieRow.updated_at = movieRow.updated_at := by
  obtain ⟨hR, hV, hO⟩ := claim_C3_partial_update_semantics storeWithReview
    3 1 2
    cThreePayloadR aliceReviewRow updatedReviewRow
    { storeWithReview with reviews := [updatedReviewRow] }
    cThreePayloadV aliceRow updatedAliceRow
    { storeWithReview with reviewers := [updatedAliceRow] }
    cThreePayloadO movieRow updatedMovieRow
    { storeWithReview with reviewed_objects := [updatedMovieRow] }
  have hR' := hR (by decide) (by decide)
  have hV' := hV (by decide) (by decide)
  have hO' := hO (by decide) (by decide)
  exact ⟨hR'.1, hR'.2.1, hR'.2.2.1, hR'.2.2.2.2.2.2.2.1, hV'.2.2.1, hV'.1,
    hO'.2.2.2.1, hO'.1, hO'.2.2.2.2.2.2.2.1⟩

/-! ### C10 -/

/-- C10: no repository update refreshes `updated_at` (or `created_at`):
a successful `update` leaves both timestamps of the row exactly as they
were, and every successful `create` stamps both with the same creation
time — so after any update the row still carries the value stamped at
creation.  (No `onupdate` default or trigger exists in the model layer.) -/
theorem claim_C10_updated_at_not_refreshed (s : Store) (rid : Nat)
    (dV : ReviewerUpdate) (rowV rowV' : ReviewerRow) (sV : Store)
    (dO : ReviewedObjectUpdate) (rowO rowO' : ReviewedObjectRow) (sO : Store)
    (dR : ReviewUpdate) (rowR rowR' : ReviewRow) (sR : Store)
    (cV : ReviewerCreate) (cO : ReviewedObjectCreate) (cR : ReviewCreate)
    (f n : Nat) (rV : ReviewerRow) (rO : ReviewedObjectRow) (rR : ReviewRow)
    (sA sB sC : Store) :
    (s.reviewers.find? (fun r => r.id == rid) = some rowV →
      ReviewerRepository.update rid dV s = .ok rowV' sV →
      rowV'.updated_at = rowV.updated_at ∧
      rowV'.created_at = rowV.created_at) ∧
    (s.reviewed_objects.find? (fun r => r.id == rid) = some rowO →
      ReviewedObjectRepository.update rid dO s = .ok rowO' sO →
      rowO'.updated_at = rowO.updated_at ∧
      rowO'.created_at = rowO.created_at) ∧
    (s.reviews.find? (fun r => r.id == rid) = some rowR →
      ReviewRepository.update rid dR s = .ok rowR' sR →
      rowR'.updated_at = rowR.updated_at ∧
      rowR'.created_at = rowR.created_at) ∧
    (ReviewerRepository.create cV f n s = .ok rV sA →
      rV.updated_at = n ∧ rV.created_at = n) ∧
    (ReviewedObjectRepository.create cO f n s = .ok rO sB →
      rO.updated_at = n ∧ rO.created_at = n) ∧
    (ReviewRepository.create cR f n s = .ok rR sC →
      rR.updated_at = n ∧ rR.created_at = n) := by
  refine ⟨?_, ?_, ?_, ?_, ?_, ?_⟩
  · intro hfind hok
    obtain ⟨-, -, -, -, h5, h6, -, -⟩ :=
      reviewerUpdate_ok rid dV s rowV rowV' sV hfind hok
    exact ⟨h6, h5⟩
  · intro hfind hok
    obtain ⟨-, -, -, -, -, -, h7, h8, -, -⟩ :=
      reviewedObjectUpdate_ok rid dO s rowO rowO' sO hfind hok
    exact ⟨h8, h7⟩
  · intro hfind hok
    obtain ⟨hrow, -, -⟩ :=
      reviewUpdate_ok rid dR s rowR rowR' sR hfind hok
    subst hrow
    exact ⟨rfl, rfl⟩
  · intro h
    rw [reviewerCreate_eq] at h
    split at h
    · obtain ⟨h1, -⟩ := RepoResult.ok.inj h
      subst h1
      exact ⟨rfl, rfl⟩
    · exact RepoResult.noConfusion h
  · intro h
    rw [reviewedObjectCreate_eq] at h
    split at h
    · obtain ⟨h1, -⟩ := RepoResult.ok.inj h
      subst h1
      exact ⟨rfl, rfl⟩
    · exact RepoResult.noConfusion h
  · intro h
    rw [reviewCreate_eq] at h
    split at h
    · obtain ⟨h1, -⟩ := RepoResult.ok.inj h
      subst h1
      exact ⟨rfl, rfl⟩
    · exact RepoResult.noConfusion h

/-- Witness for C10: the concrete C3-style update and a concrete create
hit the hypotheses; timestamps are untouched by update and stamped by
create. -/
theorem claim_C10_updated_at_not_refreshed_witness :
    updatedReviewRow.updated_at = aliceReviewRow.updated_at ∧
    starZeroRow.updated_at = 11 := by
  obtain ⟨-, -, hR, -, -, -⟩ := claim_C10_updated_at_not_refreshed
    storeWithReview 3
    {} aliceRow aliceRow baseStore
    {} movieRow movieRow baseStore
    cThreePayloadR aliceReviewRow updatedReviewRow
    { storeWithReview with reviews := [updatedReviewRow] }
    { username := "u", email := "e" }
    { object_type := "t", object_id := "i", object_name := "nm" }
    { reviewer_id := 1, reviewed_object_id := 2, star_rating := some 0 }
    3 11 aliceRow movieRow starZeroRow
    baseStore baseStore { baseStore with reviews := [starZeroRow] }
  obtain ⟨-, -, -, -, -, hC⟩ := claim_C10_updated_at_not_refreshed
    baseStore 3
    {} aliceRow aliceRow baseStore
    {} movieRow movieRow baseStore
    cThreePayloadR aliceReviewRow updatedReviewRow
    { storeWithReview with reviews := [updatedReviewRow] }
    { username := "u", email := "e" }
    { object_type := "t", object_id := "i", object_name := "nm" }
    { reviewer_id := 1, reviewed_object_id := 2, star_rating := some 0 }
    3 11 aliceRow movieRow starZeroRow
    baseStore baseStore { baseStore with reviews := [starZeroRow] }
  exact ⟨(hR (by decide) (by decide)).1, (hC (by decide)).1⟩

/-! ### C4 -/

/-- C4: for each repository, when the id (or natural key) is absent from
the store, `get_by_id` and the natural-key lookups return `none`
(Python `None`), `update` returns the `None` sentinel with the store
untouched (no row created, nothing raised), and `delete` returns
`False` with the store untouched.  Absence never surfaces as a raised
failure (`valueError`/`integrityError`). -/
theorem claim_C4_absence_is_sentinel (s : Store) (rid oid nid vid xid : Nat)
    (u e ot eid : String)
    (dV : ReviewerUpdate) (dO : ReviewedObjectUpdate) (dR : ReviewUpdate) :
    (rid ∉ s.reviewers.map (·.id) →
      ReviewerRepository.get_by_id rid s = none ∧
      ReviewerRepository.update rid dV s = .notFound s ∧
      ReviewerRepository.delete rid s = .ok false s) ∧
    (oid ∉ s.reviewed_objects.map (·.id) →
      ReviewedObjectRepository.get_by_id oid s = none ∧
      ReviewedObjectRepository.update oid dO s = .notFound s ∧
      ReviewedObjectRepository.delete oid s = .ok false s) ∧
    (nid ∉ s.reviews.map (·.id) →
      ReviewRepository.get_by_id nid s = none ∧
      ReviewRepository.update nid dR s = .notFound s ∧
      ReviewRepository.delete nid s = .ok false s) ∧
    ((∀ r ∈ s.reviewers, r.username ≠ u) →
      ReviewerRepository.get_by_username u s = none) ∧
    ((∀ r ∈ s.reviewers, r.email ≠ e) →
      ReviewerRepository.get_by_email e s = none) ∧
    ((∀ r ∈ s.reviewed_objects,
        ¬(r.object_type = ot ∧ r.object_id = eid)) →
      ReviewedObjectRepository.get_by_type_and_id ot eid s = none) ∧
    ((∀ r ∈ s.reviews,
        ¬(r.reviewer_id = vid ∧ r.reviewed_object_id = xid)) →
      ReviewRepository.get_by_reviewer_and_object vid xid s = none) := by
  refine ⟨?_, ?_, ?_, ?_, ?_, ?_, ?_⟩
  · intro hm
    have hfind : s.reviewers.find? (fun r => r.id == rid) = none := by
      rw [List.find?_eq_none]
      intro x hx
      simp only [beq_iff_eq]
      exact fun hxe => hm (hxe ▸ List.mem_map_of_mem (·.id) hx)
    refine ⟨hfind, ?_, ?_⟩
    · simp only [ReviewerRepository.update, hfind]
    · simp only [ReviewerRepository.delete, hfind]
  · intro hm
    have hfind : s.reviewed_objects.find? (fun r => r.id == oid) = none := by
      rw [List.find?_eq_none]
      intro x hx
      simp only [beq_iff_eq]
      exact fun hxe => hm (hxe ▸ List.mem_map_of_mem (·.id) hx)
    refine ⟨hfind, ?_, ?_⟩
    · simp only [ReviewedObjectRepository.update, hfind]
    · simp only [ReviewedObjectRepository.delete, hfind]
  · intro hm
    have hfind : s.reviews.find? (fun r => r.id == nid) = none := by
      rw [List.find?_eq_none]
      intro x hx
      simp only [beq_iff_eq]
      exact fun hxe => hm (hxe ▸ List.mem_map_of_mem (·.id) hx)
    refine ⟨hfind, ?_, ?_⟩
    · simp only [ReviewRepository.update, hfind]
    · simp only [ReviewRepository.delete, hfind]
  · intro hm
    rw [ReviewerRepository.get_by_username, List.find?_eq_none]
    intro x hx
    simp only [beq_iff_eq]
    exact hm x hx
  · intro hm
    rw [ReviewerRepository.get_by_email, List.find?_eq_none]
    intro x hx
    simp only [beq_iff_eq]
    exact hm x hx
  · intro hm
    rw [ReviewedObjectRepository.get_by_type_and_id, List.find?_eq_none]
    intro x hx
    simp only [Bool.and_eq_true, beq_iff_eq]
    exact fun hpair => hm x hx hpair
  · intro hm
    rw [ReviewRepository.get_by_reviewer_and_object, List.find?_eq_none]
    intro x hx
    simp only [Bool.and_eq_true, beq_iff_eq]
    exact fun hpair => hm x hx hpair

/-- Witness for C4: every absence hypothesis is discharged on the
concrete base store with keys that do not occur in it. -/
theorem claim_C4_absence_is_sentinel_witness :
    ReviewerRepository.get_by_id 99 baseStore = none ∧
    ReviewerRepository.update 99 {} baseStore = .notFound baseStore ∧
    ReviewerRepository.delete 99 baseStore = .ok false baseStore ∧
    ReviewedObjectRepository.update 98 {} baseStore = .notFound baseStore ∧
    ReviewRepository.delete 97 baseStore = .ok false baseStore ∧
    ReviewerRepository.get_by_username "zed" baseStore = none ∧
    ReviewerRepository.get_by_email "z@example.com" baseStore = none ∧
    ReviewedObjectRepository.get_by_type_and_id "song" "s9" baseStore =
      none ∧
    ReviewRepository.get_by_reviewer_and_object 5 6 baseStore = none := by
  obtain ⟨h1, h2, h3, h4, h5, h6, h7⟩ := claim_C4_absence_is_sentinel
    baseStore 99 98 97 5 6 "zed" "z@example.com" "song" "s9" {} {} {}
  have h1' := h1 (by decide)
  have h2' := h2 (by decide)
  have h3' := h3 (by decide)
  exact ⟨h1'.1, h1'.2.1, h1'.2.2, h2'.2.1, h3'.2.2, h4 (by decide),
    h5 (by decide), h6 (by decide), h7 (by decide)⟩

/-! ### C5 -/

/-- C5: after a first review for a `(reviewer_id, reviewed_object_id)`
pair is created successfully, a second create for the same pair fails
with the ConstraintViolation domain error (store surfaced unchanged),
and the committed store holds exactly one review for that pair. -/
theorem claim_C5_one_review_per_pair (d1 d2 : ReviewCreate)
    (f1 n1 f2 n2 : Nat) (s s1 : Store) (r1 : ReviewRow)
    (hr : d2.reviewer_id = d1.reviewer_id)
    (ho : d2.reviewed_object_id = d1.reviewed_object_id)
    (h1 : ReviewRepository.create d1 f1 n1 s = .ok r1 s1) :
    ReviewRepository.create d2 f2 n2 s1 = .valueError s1 ∧
    (s1.reviews.filter (fun r =>
        r.reviewer_id == d1.reviewer_id &&
        r.reviewed_object_id == d1.reviewed_object_id)).length = 1 := by
  rw [reviewCreate_eq] at h1
  split at h1
  case isFalse => exact RepoResult.noConfusion h1
  case isTrue hok =>
  obtain ⟨hr1, hs1⟩ := RepoResult.ok.inj h1
  subst hr1
  subst hs1
  simp only [storeOk, reviewsOk, Bool.and_eq_true, List.all_eq_true,
    decide_eq_true_iff] at hok
  obtain ⟨⟨-, -, hpairs⟩, -⟩ := hok
  rw [List.map_append] at hpairs
  simp only [List.map_cons, List.map_nil, Review.model_validate] at hpairs
  rw [nodup_append_singleton] at hpairs
  obtain ⟨hnotmem, -⟩ := hpairs
  constructor
  · rw [reviewCreate_eq, if_neg]
    intro hok2
    simp only [storeOk, reviewsOk, Bool.and_eq_true, List.all_eq_true,
      decide_eq_true_iff] at hok2
    obtain ⟨⟨-, -, hp2⟩, -⟩ := hok2
    rw [List.map_append] at hp2
    simp only [List.map_cons, List.map_nil, Review.model_validate] at hp2
    rw [nodup_append_singleton, hr, ho] at hp2
    obtain ⟨hnot2, -⟩ := hp2
    refine hnot2 ?_
    rw [List.map_append]
    simp only [List.map_cons, List.map_nil, Review.model_validate]
    exact List.mem_append_right _ (List.mem_singleton_self _)
  · have hfil : s.reviews.filter (fun r =>
        r.reviewer_id == d1.reviewer_id &&
        r.reviewed_object_id == d1.reviewed_object_id) = [] := by
      rw [List.filter_eq_nil_iff]
      intro r hrmem
      simp only [Bool.and_eq_true, beq_iff_eq]
      rintro ⟨ha, hb⟩
      refine hnotmem ?_
      rw [← ha, ← hb]
      exact List.mem_map_of_mem _ hrmem
    rw [List.filter_append, hfil]
    simp [Review.model_validate]

/-- Concrete fixture: the first review of the C5 scenario. -/
def cFiveRow : ReviewRow :=
  { id := 3, reviewer_id := 1, reviewed_object_id := 2,
    text_review := some "great!", star_rating := none,
    thumbs_rating := none, created_at := 11, updated_at := 11 }

/-- Concrete fixture: the store after the first C5 create. -/
def cFiveStore : Store := { baseStore with reviews := [cFiveRow] }

/-- Witness for C5: the concrete duplicate-pair scenario — first create
succeeds, second fails, exactly one review for the pair remains. -/
theorem claim_C5_one_review_per_pair_witness :
    ReviewRepository.create
      { reviewer_id := 1, reviewed_object_id := 2, text_review := some "meh" }
      4 12 cFiveStore = .valueError cFiveStore ∧
    (cFiveStore.reviews.filter (fun r =>
        r.reviewer_id == 1 && r.reviewed_object_id == 2)).length = 1 :=
  claim_C5_one_review_per_pair
    { reviewer_id := 1, reviewed_object_id := 2,
      text_review := some "great!" }
    { reviewer_id := 1, reviewed_object_id := 2, text_review := some "meh" }
    3 11 4 12 baseStore cFiveStore cFiveRow rfl rfl (by decide)

/-! ### C6 -/

/-- Flat propositional reading of `storeOk`. -/
theorem storeOk_iff (s : Store) : storeOk s = true ↔
    ((∀ r ∈ s.reviewers, reviewerRowOk r = true) ∧
     (s.reviewers.map (·.id)).Nodup ∧
     (s.reviewers.map (·.username)).Nodup ∧
     (s.reviewers.map (·.email)).Nodup) ∧
    ((∀ r ∈ s.reviewed_objects, reviewedObjectRowOk r = true) ∧
     (s.reviewed_objects.map (·.id)).Nodup ∧
     (s.reviewed_objects.map (fun r => (r.object_type, r.object_id))).Nodup) ∧
    ((∀ r ∈ s.reviews, reviewRowOk r = true) ∧
     (s.reviews.map (·.id)).Nodup ∧
     (s.reviews.map (fun r => (r.reviewer_id, r.reviewed_object_id))).Nodup) ∧
    (∀ r ∈ s.reviews,
      (∃ v ∈ s.reviewers, v.id = r.reviewer_id) ∧
      (∃ o ∈ s.reviewed_objects, o.id = r.reviewed_object_id)) := by
  simp [storeOk, reviewersOk, reviewedObjectsOk, reviewsOk, reviewFksOk,
    Bool.and_eq_true, List.all_eq_true, decide_eq_true_iff, List.any_eq_true,
    beq_iff_eq, and_assoc]

/-- C6: with a first reviewed object committed, a second create with the
identical `(object_type, object_id)` natural key fails with the
ConstraintViolation domain error, while a second create reusing the same
external `object_id` under a different `object_type` succeeds (given a
fresh primary key, a natural key unused by the other pre-existing rows,
and in-range column lengths). -/
theorem claim_C6_object_natural_key (d1 d2 : ReviewedObjectCreate)
    (f1 n1 f2 n2 : Nat) (s s1 : Store) (r1 : ReviewedObjectRow)
    (h1 : ReviewedObjectRepository.create d1 f1 n1 s = .ok r1 s1) :
    (d2.object_type = d1.object_type → d2.object_id = d1.object_id →
      ReviewedObjectRepository.create d2 f2 n2 s1 = .valueError s1) ∧
    (d2.object_type ≠ d1.object_type → d2.object_id = d1.object_id →
      f2 ∉ s1.reviewed_objects.map (·.id) →
      (∀ r ∈ s.reviewed_objects,
        ¬(r.object_type = d2.object_type ∧ r.object_id = d2.object_id)) →
      d2.object_type.length ≤ 50 → d2.object_id.length ≤ 255 →
      d2.object_name.length ≤ 255 →
      ReviewedObjectRepository.create d2 f2 n2 s1 =
        .ok (ReviewedObject.model_validate d2 f2 n2)
          { s1 with reviewed_objects :=
              s1.reviewed_objects ++ [ReviewedObject.model_validate d2 f2 n2] }) := by
  rw [reviewedObjectCreate_eq] at h1
  split at h1
  case isFalse => exact RepoResult.noConfusion h1
  case isTrue hok =>
  obtain ⟨hr1, hs1⟩ := RepoResult.ok.inj h1
  subst hr1
  subst hs1
  rw [storeOk_iff] at hok
  obtain ⟨hV, ⟨hOall, hOids, hOpairs⟩, hR, hFk⟩ := hok
  constructor
  · intro hty hoid
    rw [reviewedObjectCreate_eq, if_neg]
    intro hok2
    rw [storeOk_iff] at hok2
    obtain ⟨-, ⟨-, -, hp2⟩, -, -⟩ := hok2
    rw [List.map_append] at hp2
    simp only [List.map_cons, List.map_nil,
      ReviewedObject.model_validate] at hp2
    rw [nodup_append_singleton, hty, hoid] at hp2
    refine hp2.1 ?_
    rw [List.map_append]
    simp only [List.map_cons, List.map_nil,
      ReviewedObject.model_validate]
    exact List.mem_append_right _ (List.mem_singleton_self _)
  · intro hty hoid hfresh hnk hl1 hl2 hl3
    rw [reviewedObjectCreate_eq, if_pos]
    rw [storeOk_iff]
    refine ⟨hV, ⟨?_, ?_, ?_⟩, hR, ?_⟩
    · intro r hr
      rcases List.mem_append.mp hr with hr' | hr'
      · exact hOall r hr'
      · rw [List.mem_singleton.mp hr']
        simp only [reviewedObjectRowOk, ReviewedObject.model_validate,
          Bool.and_eq_true, decide_eq_true_iff]
        exact ⟨⟨hl1, hl2⟩, hl3⟩
    · rw [List.map_append]
      simp only [List.map_cons, List.map_nil,
        ReviewedObject.model_validate]
      rw [nodup_append_singleton]
      exact ⟨hfresh, hOids⟩
    · rw [List.map_append]
      simp only [List.map_cons, List.map_nil,
        ReviewedObject.model_validate]
      rw [nodup_append_singleton]
      refine ⟨?_, hOpairs⟩
      intro hmem
      rw [List.map_append] at hmem
      simp only [List.map_cons, List.map_nil,
        ReviewedObject.model_validate] at hmem
      rcases List.mem_append.mp hmem with hm | hm
      · obtain ⟨r, hrmem, hre⟩ := List.mem_map.mp hm
        simp only [Prod.mk.injEq] at hre
        exact hnk r hrmem hre
      · have hps := List.mem_singleton.mp hm
        simp only [Prod.mk.injEq] at hps
        exact hty hps.1
    · intro r hr
      obtain ⟨hv, o, ho', hoe⟩ := hFk r hr
      exact ⟨hv, o, List.mem_append_left _ ho', hoe⟩

/-- Concrete fixture: the first object of the C6 scenario. -/
def prodRow : ReviewedObjectRow :=
  { id := 5, object_type := "product", object_id := "prod123",
    object_name := "Product 1", object_description := none,
    object_metadata := none, created_at := 12, updated_at := 12 }

/-- Concrete fixture: the store after the first C6 create. -/
def cSixStore : Store :=
  { baseStore with reviewed_objects := [movieRow, prodRow] }

/-- Concrete fixture: a second object reusing external id `prod123`
under a different type. -/
def cSixMovieRow : ReviewedObjectRow :=
  { id := 6, object_type := "movie", object_id := "prod123",
    object_name := "Movie P", object_description := none,
    object_metadata := none, created_at := 13, updated_at := 13 }

/-- Witness for C6: on the concrete store, the duplicate natural key is
rejected and the same external id under a different type is accepted. -/
theorem claim_C6_object_natural_key_witness :
    ReviewedObjectRepository.create
      { object_type := "product", object_id := "prod123",
        object_name := "Product 2" } 6 13 cSixStore =
      .valueError cSixStore ∧
    ReviewedObjectRepository.create
      { object_type := "movie", object_id := "prod123",
        object_name := "Movie P" } 6 13 cSixStore =
      .ok cSixMovieRow
        { cSixStore with
          reviewed_objects := [movieRow, prodRow, cSixMovieRow] } := by
  obtain ⟨hdup, -⟩ := claim_C6_object_natural_key
    { object_type := "product", object_id := "prod123",
      object_name := "Product 1" }
    { object_type := "product", object_id := "prod123",
      object_name := "Product 2" }
    5 12 6 13 baseStore cSixStore prodRow (by decide)
  obtain ⟨-, hnew⟩ := claim_C6_object_natural_key
    { object_type := "product", object_id := "prod123",
      object_name := "Product 1" }
    { object_type := "movie", object_id := "prod123",
      object_name := "Movie P" }
    5 12 6 13 baseStore cSixStore prodRow (by decide)
  exact ⟨hdup rfl rfl,
    hnew (by decide) rfl (by decide) (by decide) (by decide) (by decide)
      (by decide)⟩

/-! ### C7 -/

/-- Counterexample to C7 as stated: deleting the reviewer (or the
object) referenced by the fixture review does fail, but the failure is
the raw storage-layer `IntegrityError` escaping the un-wrapped commit of
`delete` — it is NOT surfaced like ConstraintViolation, whose channel is
the caught-rolled-back-re-raised `ValueError` that `create`/`update`
produce. -/
theorem claim_C7_counterexample :
    ReviewerRepository.delete 1 storeWithReview =
      .integrityError storeWithReview ∧
    ReviewedObjectRepository.delete 2 storeWithReview =
      .integrityError storeWithReview ∧
    ReviewerRepository.delete 1 storeWithReview ≠
      .valueError storeWithReview ∧
    ReviewedObjectRepository.delete 2 storeWithReview ≠
      .valueError storeWithReview := by
  refine ⟨by decide, by decide, by decide, by decide⟩

/-- C7 amended: deleting a Reviewer or ReviewedObject row still
referenced by a dependent Review row fails — the raw `IntegrityError`
propagates out of the un-wrapped commit (no translation into the
ConstraintViolation-style domain error), the store keeps exactly its
prior rows, and the delete does not cascade to the dependents. -/
theorem claim_C7_referenced_delete_raw_error (s : Store) (rid oid : Nat)
    (rowV : ReviewerRow) (rowO : ReviewedObjectRow) (rv : ReviewRow) :
    (s.reviewers.find? (fun r => r.id == rid) = some rowV →
      rv ∈ s.reviews → rv.reviewer_id = rid →
      ReviewerRepository.delete rid s = .integrityError s) ∧
    (s.reviewed_objects.find? (fun r => r.id == oid) = some rowO →
      rv ∈ s.reviews → rv.reviewed_object_id = oid →
      ReviewedObjectRepository.delete oid s = .integrityError s) := by
  constructor
  · intro hfind hmem href
    simp only [ReviewerRepository.delete, hfind]
    rw [if_neg]
    intro hok
    rw [storeOk_iff] at hok
    obtain ⟨-, -, -, hFk⟩ := hok
    obtain ⟨⟨v, hv, hve⟩, -⟩ := hFk rv hmem
    have hvkeep := List.mem_filter.mp hv
    rw [href] at hve
    simp only [bne_iff_ne, ne_eq] at hvkeep
    exact hvkeep.2 hve
  · intro hfind hmem href
    simp only [ReviewedObjectRepository.delete, hfind]
    rw [if_neg]
    intro hok
    rw [storeOk_iff] at hok
    obtain ⟨-, -, -, hFk⟩ := hok
    obtain ⟨-, ⟨o, ho', hoe⟩⟩ := hFk rv hmem
    have hokeep := List.mem_filter.mp ho'
    rw [href] at hoe
    simp only [bne_iff_ne, ne_eq] at hokeep
    exact hokeep.2 hoe

/-- Witness for the amended C7: the fixture store with its one review
triggers both delete failures. -/
theorem claim_C7_referenced_delete_raw_error_witness :
    ReviewerRepository.delete 1 storeWithReview =
      .integrityError storeWithReview ∧
    ReviewedObjectRepository.delete 2 storeWithReview =
      .integrityError storeWithReview := by
  obtain ⟨hV, hO⟩ := claim_C7_referenced_delete_raw_error storeWithReview
    1 2 aliceRow movieRow aliceReviewRow
  exact ⟨hV (by decide) (by decide) (by decide),
    hO (by decide) (by decide) (by decide)⟩

/-! ### C8 -/

/-- C8: the statistics projection reports `total_reviews = 0` and an
absent (`none`) `average_rating` for an object with no reviews; in
general `average_rating` is `none` exactly when no non-null star rating
exists, and otherwise is the arithmetic mean of the non-null star
ratings, whose divisor is provably non-zero. -/
theorem claim_C8_statistics_projection (s : Store) (obj : ReviewedObjectRow) :
    (s.reviews.filter (fun r => r.reviewed_object_id == obj.id) = [] →
      (computeStatistics s obj).total_reviews = 0 ∧
      (computeStatistics s obj).average_rating = none) ∧
    ((s.reviews.filter (fun r => r.reviewed_object_id == obj.id)).filterMap
        (fun r => r.star_rating) = [] →
      (computeStatistics s obj).average_rating = none) ∧
    (∀ stars, stars = (s.reviews.filter
          (fun r => r.reviewed_object_id == obj.id)).filterMap
          (fun r => r.star_rating) →
      stars ≠ [] →
      (stars.length : Rat) ≠ 0 ∧
      (computeStatistics s obj).average_rating =
        some ((stars.map (fun k => (k : Rat))).sum / (stars.length : Rat))) := by
  refine ⟨?_, ?_, ?_⟩
  · intro h
    constructor
    · simp [computeStatistics, h]
    · simp [computeStatistics, h]
  · intro h
    simp only [computeStatistics]
    rw [if_pos]
    rw [h]
    rfl
  · intro stars hdef hne
    subst hdef
    constructor
    · rw [Nat.cast_ne_zero]
      simpa using hne
    · simp only [computeStatistics]
      rw [if_neg]
      simpa using hne

/-- Witness for C8: the fixture object with zero reviews reports zero
total and absent average; with its single five-star review the average
is the mean of one rating. -/
theorem claim_C8_statistics_projection_witness :
    (computeStatistics baseStore movieRow).total_reviews = 0 ∧
    (computeStatistics baseStore movieRow).average_rating = none ∧
    (computeStatistics storeWithReview movieRow).average_rating =
      some ((([(5 : Int)].map (fun k => (k : Rat))).sum) /
        (([(5 : Int)].length : Nat) : Rat)) := by
  obtain ⟨h1, -, -⟩ := claim_C8_statistics_projection baseStore movieRow
  obtain ⟨-, -, h3⟩ := claim_C8_statistics_projection storeWithReview movieRow
  have h1' := h1 (by decide)
  have h3' := h3 [(5 : Int)] (by decide) (by decide)
  exact ⟨h1'.1, h1'.2, h3'.2⟩

/-! ### C9 -/

/-- Concatenating the pages `skip = 0, limit, 2*limit, ...` of a list
recovers its prefix of length `n * limit`. -/
theorem pages_flatten {α : Type} (l : List α) (limit n : Nat) :
    ((List.range n).map (fun k => (l.drop (k * limit)).take limit)).flatten
      = l.take (n * limit) := by
  induction n with
  | zero => simp
  | succ m ih =>
    rw [List.range_succ, List.map_append, List.flatten_append]
    simp only [List.map_cons, List.map_nil, List.flatten_cons,
      List.flatten_nil, List.append_nil]
    rw [ih, Nat.succ_mul, List.take_add]

/-- C9: with a fixed store, paging `get_by_object` with
`skip = 0, limit, 2*limit, ...` is deterministic and the concatenation of
the sequential pages is exactly the full result set for the object —
every review for the object appears exactly once, no overlap, no gap
(here `n` pages suffice to cover the result set). -/
theorem claim_C9_pagination_partition (s : Store) (oid limit n : Nat)
    (hcov : (s.reviews.filter
        (fun r => r.reviewed_object_id == oid)).length ≤ n * limit) :
    ((List.range n).map (fun k =>
        ReviewRepository.get_by_object oid (k * limit) limit s)).flatten
      = s.reviews.filter (fun r => r.reviewed_object_id == oid) := by
  simp only [ReviewRepository.get_by_object]
  rw [pages_flatten]
  exact List.take_of_length_le hcov

/-- Witness for C9: one page of size one covers the single review of the
fixture object. -/
theorem claim_C9_pagination_partition_witness :
    ((List.range 1).map (fun k =>
        ReviewRepository.get_by_object 2 (k * 1) 1 storeWithReview)).flatten
      = storeWithReview.reviews.filter (fun r => r.reviewed_object_id == 2) :=
  claim_C9_pagination_partition storeWithReview 2 1 1 (by decide)
